import Mathlib

/-
Verification of the stateful workflow core of a Discord bot (`bot.py`):
the reminder scheduler, the ticket lifecycle manager, the JSON-backed
store, and the poll manager.  Each Python function of the core is
shallowly embedded as an executable Lean definition; effects of the
messaging gateway (channel resolution, sends, history fetches) are
passed in as explicit environment records of success/failure outcomes,
mirroring the try/except structure of the source.
-/

/-! ## Reminder scheduler (`check_reminders`, bot.py lines 126-150) -/

/-- A reminder record, as built by `set_reminder` (bot.py lines 809-815). -/
structure Reminder where
  user_id : Nat
  channel_id : Nat
  message : String
  due_time : Int
  set_time : Int
deriving DecidableEq

/-- Outcome of the messaging-gateway calls made for one due reminder inside
the per-reminder `try` block of `check_reminders`:
* `sendOk`: `get_channel` and `fetch_user` both resolved and `channel.send`
  succeeded;
* `resolveNone`: `get_channel` returned `None` (or the user was falsy), so
  the `if channel and user` guard skipped the send — no exception raised;
* `fetchRaises`: `bot.fetch_user` raised, before any send;
* `sendRaises`: `channel.send` raised. -/
inductive ReminderOutcome where
  | sendOk
  | resolveNone
  | fetchRaises
  | sendRaises
deriving DecidableEq

/-- Whether the per-reminder body runs to completion (reaching
`reminders.remove` and `save_data`) rather than jumping to `except`. -/
def completesProcessing : ReminderOutcome → Bool
  | .sendOk => true
  | .resolveNone => true
  | .fetchRaises => false
  | .sendRaises => false

/-- Whether `channel.send` was actually invoked for the reminder. -/
def attemptMade : ReminderOutcome → Bool
  | .sendOk => true
  | .resolveNone => false
  | .fetchRaises => false
  | .sendRaises => true

/-- Observable state threaded through one sweep of `check_reminders`:
the in-memory `reminders` list, how many times `save_data` ran, which
reminders had a `channel.send` invoked, and which sends succeeded. -/
structure SweepState where
  reminders : List Reminder
  saves : Nat
  sendAttempts : List Reminder
  delivered : List Reminder
deriving DecidableEq

/-- Body of the `for reminder in reminders_due` loop of `check_reminders`
(bot.py lines 133-147).  On completion the reminder is erased from the
list (`reminders.remove` removes the first equal element) and the list is
saved; an exception from `fetch_user` or `channel.send` is caught by the
`except` clause, skipping removal and save. -/
def processReminder (env : Reminder → ReminderOutcome) (s : SweepState)
    (r : Reminder) : SweepState :=
  match env r with
  | .sendOk =>
      { s with
        sendAttempts := s.sendAttempts ++ [r]
        delivered := s.delivered ++ [r]
        reminders := s.reminders.erase r
        saves := s.saves + 1 }
  | .resolveNone =>
      { s with
        reminders := s.reminders.erase r
        saves := s.saves + 1 }
  | .fetchRaises => s
  | .sendRaises => { s with sendAttempts := s.sendAttempts ++ [r] }

/-- One sweep of `check_reminders` (bot.py lines 130-147): snapshot the
due reminders (`due_time <= now`), then process each in order. -/
def check_reminders_sweep (env : Reminder → ReminderOutcome) (now : Int)
    (rs : List Reminder) : SweepState :=
  (rs.filter (fun r => r.due_time ≤ now)).foldl (processReminder env)
    ⟨rs, 0, [], []⟩

theorem foldl_processReminder_saves (env : Reminder → ReminderOutcome) :
    ∀ (l : List Reminder) (s : SweepState),
      (l.foldl (processReminder env) s).saves
        = s.saves + (l.filter (fun r => completesProcessing (env r))).length := by
  intro l
  induction l with
  | nil => intro s; simp
  | cons a l ih =>
      intro s
      rw [List.foldl_cons, ih]
      cases henv : env a <;>
        simp [processReminder, completesProcessing, henv, List.filter_cons] <;>
        omega

theorem foldl_processReminder_attempts (env : Reminder → ReminderOutcome) :
    ∀ (l : List Reminder) (s : SweepState),
      (l.foldl (processReminder env) s).sendAttempts
        = s.sendAttempts ++ l.filter (fun r => attemptMade (env r)) := by
  intro l
  induction l with
  | nil => intro s; simp
  | cons a l ih =>
      intro s
      rw [List.foldl_cons, ih]
      cases henv : env a <;>
        simp [processReminder, attemptMade, henv, List.filter_cons]

theorem foldl_processReminder_mem (env : Reminder → ReminderOutcome)
    (r : Reminder) :
    ∀ (l : List Reminder) (s : SweepState), r ∉ l →
      (r ∈ (l.foldl (processReminder env) s).reminders ↔ r ∈ s.reminders) := by
  intro l
  induction l with
  | nil => intro s _; rfl
  | cons a l ih =>
      intro s hr
      have hne : r ≠ a := fun h => hr (h ▸ List.mem_cons_self a l)
      have hrl : r ∉ l := fun h => hr (List.mem_cons_of_mem a h)
      rw [List.foldl_cons, ih _ hrl]
      cases henv : env a <;>
        simp [processReminder, henv, List.mem_erase_of_ne hne]

theorem foldl_processReminder_nodup (env : Reminder → ReminderOutcome) :
    ∀ (l : List Reminder) (s : SweepState), s.reminders.Nodup →
      (l.foldl (processReminder env) s).reminders.Nodup := by
  intro l
  induction l with
  | nil => intro s hs; exact hs
  | cons a l ih =>
      intro s hs
      rw [List.foldl_cons]
      apply ih
      cases henv : env a <;> simp only [processReminder, henv] <;>
        first
          | exact hs
          | exact hs.erase a

/-- The `reminders_due` snapshot taken at the start of a sweep
(bot.py line 131). -/
def dueFilter (now : Int) (rs : List Reminder) : List Reminder :=
  rs.filter (fun r => r.due_time ≤ now)

/-- Claim C1 (amended): a due reminder whose per-item processing completes
without an exception is removed from the collection (even when the
destination or user did not resolve and no send happened), but a reminder
whose `fetch_user` or `channel.send` raises is caught by the `except`
handler before `reminders.remove`, so it stays in the collection and will
be retried on the next sweep; at most one `channel.send` attempt is made
for it within the sweep. -/
theorem check_reminders_removal_iff_no_exception
    (env : Reminder → ReminderOutcome) (now : Int) (rs : List Reminder)
    (r : Reminder) (hmem : r ∈ rs) (hdue : r.due_time ≤ now)
    (hnd : rs.Nodup) :
    (completesProcessing (env r) = true →
        r ∉ (check_reminders_sweep env now rs).reminders) ∧
    (completesProcessing (env r) = false →
        r ∈ (check_reminders_sweep env now rs).reminders) ∧
    (check_reminders_sweep env now rs).sendAttempts.count r
      = (if attemptMade (env r) = true then 1 else 0) := by
  have hduemem : r ∈ dueFilter now rs := by
    unfold dueFilter
    exact List.mem_filter.2 ⟨hmem, by simpa using hdue⟩
  have hdnd : (dueFilter now rs).Nodup := hnd.filter _
  obtain ⟨l1, l2, hsplit⟩ := List.append_of_mem hduemem
  have hnd12 : (l1 ++ r :: l2).Nodup := hsplit ▸ hdnd
  have hrl1 : r ∉ l1 := by
    rcases List.nodup_append.mp hnd12 with ⟨-, -, hdisj⟩
    exact fun h => hdisj h (List.mem_cons_self r l2)
  have hrl2 : r ∉ l2 := by
    rcases List.nodup_append.mp hnd12 with ⟨-, h2, -⟩
    exact (List.nodup_cons.mp h2).1
  have hfold : check_reminders_sweep env now rs
      = l2.foldl (processReminder env)
          (processReminder env
            (l1.foldl (processReminder env) ⟨rs, 0, [], []⟩) r) := by
    unfold check_reminders_sweep
    rw [show rs.filter (fun x => decide (x.due_time ≤ now))
          = dueFilter now rs from rfl, hsplit,
      List.foldl_append, List.foldl_cons]
  have hs1mem : r ∈ (l1.foldl (processReminder env)
      (⟨rs, 0, [], []⟩ : SweepState)).reminders :=
    (foldl_processReminder_mem env r l1 _ hrl1).mpr hmem
  have hs1nd : (l1.foldl (processReminder env)
      (⟨rs, 0, [], []⟩ : SweepState)).reminders.Nodup :=
    foldl_processReminder_nodup env l1 _ hnd
  refine ⟨?_, ?_, ?_⟩
  · intro hc hmemfinal
    rw [hfold] at hmemfinal
    have hmem2 := (foldl_processReminder_mem env r l2 _ hrl2).mp hmemfinal
    cases henv : env r with
    | sendOk =>
        simp only [processReminder, henv] at hmem2
        exact ((hs1nd.mem_erase_iff).mp hmem2).1 rfl
    | resolveNone =>
        simp only [processReminder, henv] at hmem2
        exact ((hs1nd.mem_erase_iff).mp hmem2).1 rfl
    | fetchRaises =>
        rw [henv] at hc
        simp [completesProcessing] at hc
    | sendRaises =>
        rw [henv] at hc
        simp [completesProcessing] at hc
  · intro hc
    rw [hfold]
    apply (foldl_processReminder_mem env r l2 _ hrl2).mpr
    cases henv : env r with
    | sendOk =>
        rw [henv] at hc
        simp [completesProcessing] at hc
    | resolveNone =>
        rw [henv] at hc
        simp [completesProcessing] at hc
    | fetchRaises =>
        simp only [processReminder, henv]
        exact hs1mem
    | sendRaises =>
        simp only [processReminder, henv]
        exact hs1mem
  · have hatt : (check_reminders_sweep env now rs).sendAttempts
        = (dueFilter now rs).filter (fun x => attemptMade (env x)) := by
      unfold check_reminders_sweep
      rw [show rs.filter (fun x => decide (x.due_time ≤ now))
            = dueFilter now rs from rfl]
      rw [foldl_processReminder_attempts]
      simp
    rw [hatt]
    by_cases ha : attemptMade (env r) = true
    · rw [if_pos ha]
      exact List.count_eq_one_of_mem (hdnd.filter _)
        (List.mem_filter.2 ⟨hduemem, ha⟩)
    · rw [if_neg ha]
      apply List.count_eq_zero.mpr
      intro hmem2
      exact ha (List.mem_filter.mp hmem2).2

/-- Claim C1 counterexample: a reminder due at sweep time whose
`channel.send` raises is still present in the reminders collection after
the sweep (exactly one delivery attempt was made, but the exception
handler skipped `reminders.remove`), refuting unconditional removal. -/
theorem check_reminders_failed_send_retained :
    (⟨1, 2, "hi", 10, 0⟩ : Reminder).due_time ≤ 10 ∧
    (check_reminders_sweep (fun _ => ReminderOutcome.sendRaises) 10
        [⟨1, 2, "hi", 10, 0⟩]).reminders = [⟨1, 2, "hi", 10, 0⟩] ∧
    (check_reminders_sweep (fun _ => ReminderOutcome.sendRaises) 10
        [⟨1, 2, "hi", 10, 0⟩]).sendAttempts = [⟨1, 2, "hi", 10, 0⟩] := by
  decide

/-- Claim C1 witness: a due reminder whose send succeeds is removed by the
sweep. -/
theorem check_reminders_removal_iff_no_exception_witness :
    (⟨1, 2, "hi", 10, 0⟩ : Reminder) ∉
      (check_reminders_sweep (fun _ => ReminderOutcome.sendOk) 10
        [⟨1, 2, "hi", 10, 0⟩]).reminders :=
  (check_reminders_removal_iff_no_exception
      (fun _ => ReminderOutcome.sendOk) 10 [⟨1, 2, "hi", 10, 0⟩]
      ⟨1, 2, "hi", 10, 0⟩ (by decide) (by decide) (by decide)).1 (by decide)

/-- Claim C6 (amended): within one sweep, `save_data` runs once per due
reminder whose per-item processing completes (one save immediately after
each removal, inside the loop), so the number of persists equals the
number of completed due reminders — not one per cycle. -/
theorem check_reminders_saves_per_reminder
    (env : Reminder → ReminderOutcome) (now : Int) (rs : List Reminder) :
    (check_reminders_sweep env now rs).saves
      = ((dueFilter now rs).filter
          (fun r => completesProcessing (env r))).length := by
  unfold check_reminders_sweep
  rw [foldl_processReminder_saves]
  simp [dueFilter]

/-- Claim C6 counterexample: with two due reminders both delivered
successfully, the reminders file is saved twice in the sweep, not exactly
once. -/
theorem check_reminders_two_saves_in_one_sweep :
    (⟨1, 2, "a", 10, 0⟩ : Reminder).due_time ≤ 10 ∧
    (⟨3, 4, "b", 10, 0⟩ : Reminder).due_time ≤ 10 ∧
    (check_reminders_sweep (fun _ => ReminderOutcome.sendOk) 10
        [⟨1, 2, "a", 10, 0⟩, ⟨3, 4, "b", 10, 0⟩]).saves = 2 := by
  decide

/-! ## Ticket lifecycle (`close_ticket` bot.py lines 909-964,
`check_ticket_timeouts` bot.py lines 152-195) -/

/-- Lookup in a Python-dict-like association list (first matching key). -/
def lookupKey {β : Type} (k : String) : List (String × β) → Option β
  | [] => none
  | p :: rest => if p.1 = k then some p.2 else lookupKey k rest

/-- In-place update of an existing key in a Python-dict-like association
list (keys are unique in a dict, so updating the first match models
`d[k] = v` for a present key). -/
def setKey {β : Type} (k : String) (v : β) : List (String × β) → List (String × β)
  | [] => []
  | p :: rest => if p.1 = k then (p.1, v) :: rest else p :: setKey k v rest

/-- A ticket record, as built by `create_ticket` (bot.py lines 893-899);
`closed_by`/`closed_at` are absent until an explicit close sets them. -/
structure Ticket where
  user_id : Nat
  reason : String
  status : String
  created_at : Int
  last_activity : Int
  closed_by : Option Nat
  closed_at : Option Int
deriving DecidableEq

/-- The per-guild inner dict of `tickets`, keyed by channel id string. -/
abbrev GuildTickets := List (String × Ticket)

/-- The `tickets` collection: guild id string to inner dict. -/
abbrev Tickets := List (String × GuildTickets)

/-- Membership test and read of `tickets[guild_id][channel_id]`
(bot.py lines 920-924). -/
def lookupTicket (ts : Tickets) (g c : String) : Option Ticket :=
  match lookupKey g ts with
  | none => none
  | some m => lookupKey c m

/-- In-place mutation of `tickets[guild_id][channel_id]`. -/
def setTicket : Tickets → String → String → Ticket → Tickets
  | [], _, _, _ => []
  | p :: rest, g, c, t =>
      if p.1 = g then (p.1, setKey c t p.2) :: rest
      else p :: setTicket rest g c t

/-- Outcomes of the fallible messaging-gateway calls inside the `try`
block of `close_ticket`, in the order the source makes them: the channel
history fetch (transcript generation), the transcript-channel get/create
and transcript sends (archiving), the ticket channel deletion, and the
post-close owner DM. -/
structure CloseEnv where
  transcript_ok : Bool
  archive_ok : Bool
  delete_ok : Bool
  notify_ok : Bool

/-- Observable result of `close_ticket`. -/
inductive CloseResult where
  | notTextChannel
  | notTicket
  | forbidden
  | errored
  | closedOk
deriving DecidableEq

/-- The `!closeticket` command (bot.py lines 909-964).  Guards: the
channel must be a text channel; `(guild, channel)` must be a tracked
ticket; the author must be the owner or hold `manage_channels`.  Then the
`try` block runs transcript generation, archiving and channel deletion
before mutating the record; the status/closed_by/closed_at mutation and
`save_data` happen only after those succeed, and the owner DM comes
last, after the mutation.  Any exception is caught: the state at the
raise point is kept. -/
def close_ticket (env : CloseEnv) (isText : Bool) (author : Nat)
    (manageChannels : Bool) (now : Int) (g c : String) (ts : Tickets) :
    CloseResult × Tickets :=
  if isText = false then (.notTextChannel, ts)
  else
    match lookupTicket ts g c with
    | none => (.notTicket, ts)
    | some t =>
      if author != t.user_id && !manageChannels then (.forbidden, ts)
      else if env.transcript_ok = false then (.errored, ts)
      else if env.archive_ok = false then (.errored, ts)
      else if env.delete_ok = false then (.errored, ts)
      else
        let t2 : Ticket :=
          { t with status := "closed", closed_by := some author,
                   closed_at := some now }
        let ts2 := setTicket ts g c t2
        if env.notify_ok = false then (.errored, ts2) else (.closedOk, ts2)

/-- The eligibility test of the auto-close sweep (bot.py line 159):
`ticket['status'] == 'open' and current_time - ticket['last_activity'] > 86400`. -/
def timeoutEligible (now : Int) (t : Ticket) : Bool :=
  t.status == "open" && decide (now - t.last_activity > 86400)

/-- Outcomes of the fallible calls inside the per-ticket `try` block of
`check_ticket_timeouts`: guild resolution (a `None` guild raises on
`.get_channel`), channel resolution (a `None` channel silently skips the
body), transcript generation, archiving, channel deletion, and the
owner DM sent after the mutation. -/
structure SweepCloseEnv where
  guild_ok : Bool
  channel_some : Bool
  transcript_ok : Bool
  archive_ok : Bool
  delete_ok : Bool
  notify_ok : Bool

/-- Observable result of one per-ticket step of the auto-close sweep. -/
inductive SweepTicketResult where
  | skippedNotEligible
  | skippedNoChannel
  | errored
  | closedAuto
deriving DecidableEq

/-- One per-ticket step of `check_ticket_timeouts` (bot.py lines
158-192).  Note the sweep sets only `status` (not `closed_by` or
`closed_at`), and the status mutation happens after transcript,
archiving and deletion, with the owner notification after it. -/
def sweepTicketStep (env : SweepCloseEnv) (now : Int) (t : Ticket) :
    SweepTicketResult × Ticket :=
  if timeoutEligible now t = false then (.skippedNotEligible, t)
  else if env.guild_ok = false then (.errored, t)
  else if env.channel_some = false then (.skippedNoChannel, t)
  else if env.transcript_ok = false then (.errored, t)
  else if env.archive_ok = false then (.errored, t)
  else if env.delete_ok = false then (.errored, t)
  else
    let t2 : Ticket := { t with status := "closed" }
    if env.notify_ok = false then (.errored, t2) else (.closedAuto, t2)

/-- Environment in which every gateway call of the sweep succeeds. -/
def allOkSweepEnv : SweepCloseEnv := ⟨true, true, true, true, true, true⟩

/-- Environment in which every gateway call of the explicit close succeeds. -/
def allOkCloseEnv : CloseEnv := ⟨true, true, true, true⟩

theorem lookupKey_setKey {β : Type} (k : String) (v0 v : β) :
    ∀ (m : List (String × β)), lookupKey k m = some v0 →
      lookupKey k (setKey k v m) = some v := by
  intro m
  induction m with
  | nil => intro h; simp [lookupKey] at h
  | cons p rest ih =>
      intro h
      by_cases hk : p.1 = k
      · simp [setKey, hk, lookupKey]
      · simp only [setKey, if_neg hk, lookupKey] at h ⊢
        exact ih h

theorem lookupTicket_setTicket (g c : String) (t0 t : Ticket) :
    ∀ (ts : Tickets), lookupTicket ts g c = some t0 →
      lookupTicket (setTicket ts g c t) g c = some t := by
  intro ts
  induction ts with
  | nil => intro h; simp [lookupTicket, lookupKey] at h
  | cons p rest ih =>
      intro h
      by_cases hg : p.1 = g
      · simp only [lookupTicket, lookupKey, setTicket, if_pos hg] at h ⊢
        exact lookupKey_setKey c t0 t p.2 h
      · simp only [lookupTicket, lookupKey, setTicket, if_neg hg] at h ⊢
        exact ih h

/-- Claim C9: explicitly closing a ticket is permitted only for the
ticket owner or a closer with the manage-channels right; any closer
satisfying neither condition gets the permission error, and the tickets
collection is returned unchanged (the permission check precedes every
mutation and every gateway call). -/
theorem close_ticket_forbidden_without_rights
    (env : CloseEnv) (author : Nat) (now : Int) (g c : String)
    (ts : Tickets) (t : Ticket) (hl : lookupTicket ts g c = some t)
    (hown : author ≠ t.user_id) :
    close_ticket env true author false now g c ts = (.forbidden, ts) := by
  simp [close_ticket, hl, hown]

/-- Claim C9 witness: a stranger (id 99) cannot close the ticket owned
by user 10; the collection is untouched. -/
theorem close_ticket_forbidden_without_rights_witness :
    close_ticket allOkCloseEnv true 99 false 50 "1" "2"
        [("1", [("2", ⟨10, "r", "open", 0, 0, none, none⟩)])]
      = (.forbidden, [("1", [("2", ⟨10, "r", "open", 0, 0, none, none⟩)])]) :=
  close_ticket_forbidden_without_rights allOkCloseEnv 99 50 "1" "2"
    [("1", [("2", ⟨10, "r", "open", 0, 0, none, none⟩)])]
    ⟨10, "r", "open", 0, 0, none, none⟩ (by decide) (by decide)

/-- Claim C2 counterexample: with transcript generation failing (history
fetch raises) and everything else fine, the owner's close is aborted by
the exception handler: the result is the error report and the ticket is
still "open" in the unchanged collection — the status is not set to
closed, contradicting the claim that the close still proceeds. -/
theorem close_ticket_transcript_failure_aborts :
    close_ticket ⟨false, true, true, true⟩ true 10 false 50 "1" "2"
        [("1", [("2", ⟨10, "r", "open", 0, 5, none, none⟩)])]
      = (.errored, [("1", [("2", ⟨10, "r", "open", 0, 5, none, none⟩)])]) ∧
    (⟨10, "r", "open", 0, 5, none, none⟩ : Ticket).status ≠ "closed" := by
  decide

/-- Claim C2 (amended): in both the explicit close and the auto-close
sweep, a failure during transcript generation or transcript archiving is
caught and logged but ABORTS the close: the whole close body sits in one
`try` block with the status mutation after the transcript steps, so the
ticket record is left unchanged (still open, nothing persisted); the
status is set to closed only once transcript, archiving and channel
deletion have all succeeded. -/
theorem close_abort_on_transcript_or_archive_failure
    (env : CloseEnv) (author : Nat) (manage : Bool) (now : Int)
    (g c : String) (ts : Tickets) (t : Ticket)
    (hl : lookupTicket ts g c = some t)
    (hauth : author = t.user_id ∨ manage = true)
    (hfail : env.transcript_ok = false ∨ env.archive_ok = false) :
    close_ticket env true author manage now g c ts = (.errored, ts) ∧
    (∀ (senv : SweepCloseEnv) (now2 : Int) (t2 : Ticket),
        timeoutEligible now2 t2 = true → senv.guild_ok = true →
        senv.channel_some = true →
        (senv.transcript_ok = false ∨ senv.archive_ok = false) →
        sweepTicketStep senv now2 t2 = (.errored, t2)) := by
  have hbool : (author != t.user_id && !manage) = false := by
    rcases hauth with h | h
    · simp [h]
    · simp [h]
  constructor
  · rcases hfail with hf | hf
    · simp [close_ticket, hl, hbool, hf]
    · by_cases htr : env.transcript_ok = false
      · simp [close_ticket, hl, hbool, htr]
      · simp [close_ticket, hl, hbool, htr, hf]
  · intro senv now2 t2 helig hguild hchan hfail2
    rcases hfail2 with hf | hf
    · simp [sweepTicketStep, helig, hguild, hchan, hf]
    · by_cases htr : senv.transcript_ok = false
      · simp [sweepTicketStep, helig, hguild, hchan, htr]
      · simp [sweepTicketStep, helig, hguild, hchan, htr, hf]

/-- Claim C2 witness: transcript failure aborts the owner's close of an
open ticket, leaving the collection unchanged. -/
theorem close_abort_on_transcript_or_archive_failure_witness :
    close_ticket ⟨false, true, true, true⟩ true 10 true 50 "1" "2"
        [("1", [("2", ⟨10, "r", "open", 0, 5, none, none⟩)])]
      = (.errored, [("1", [("2", ⟨10, "r", "open", 0, 5, none, none⟩)])]) :=
  (close_abort_on_transcript_or_archive_failure ⟨false, true, true, true⟩
      10 true 50 "1" "2"
      [("1", [("2", ⟨10, "r", "open", 0, 5, none, none⟩)])]
      ⟨10, "r", "open", 0, 5, none, none⟩ (by decide) (Or.inr rfl)
      (Or.inl rfl)).1

/-- Claim C3 counterexample: closing a ticket that is already closed
(status "closed", closed_at 100, closed_by 7) is not a no-op and is not
reported as "already closed": the close sequence re-runs, reports
ordinary success, and overwrites closed_by (7 to 10) and closed_at
(100 to 200). -/
theorem close_ticket_recloses_closed_ticket :
    close_ticket allOkCloseEnv true 10 false 200 "1" "2"
        [("1", [("2", ⟨10, "r", "closed", 0, 5, some 7, some 100⟩)])]
      = (.closedOk,
          [("1", [("2", ⟨10, "r", "closed", 0, 5, some 10, some 200⟩)])]) ∧
    (some 200 : Option Int) ≠ some 100 := by
  decide

/-- Claim C3 (amended): `close_ticket` never inspects the status field,
so closing an already-closed ticket is not idempotent: it re-runs the
full close sequence, reports ordinary success (no "already closed"
report exists in the command), and overwrites `closed_by` and
`closed_at` with the new closer and time; only the auto-close sweep
skips tickets whose status is not "open". -/
theorem close_ticket_reclose_overwrites
    (author : Nat) (manage : Bool) (now : Int) (g c : String)
    (ts : Tickets) (t : Ticket) (hl : lookupTicket ts g c = some t)
    (_hst : t.status = "closed")
    (hauth : author = t.user_id ∨ manage = true) :
    (close_ticket allOkCloseEnv true author manage now g c ts).1
        = .closedOk ∧
    lookupTicket
        (close_ticket allOkCloseEnv true author manage now g c ts).2 g c
      = some { t with status := "closed", closed_by := some author,
                      closed_at := some now } ∧
    (∀ (senv : SweepCloseEnv) (now2 : Int) (t2 : Ticket),
        t2.status = "closed" →
        sweepTicketStep senv now2 t2 = (.skippedNotEligible, t2)) := by
  have hbool : (author != t.user_id && !manage) = false := by
    rcases hauth with h | h
    · simp [h]
    · simp [h]
  refine ⟨?_, ?_, ?_⟩
  · simp [close_ticket, hl, hbool, allOkCloseEnv]
  · simp only [close_ticket, hl, hbool, allOkCloseEnv]
    simp only [if_neg (by decide : ¬(true = false))]
    exact lookupTicket_setTicket g c t _ ts hl
  · intro senv now2 t2 hst2
    have : timeoutEligible now2 t2 = false := by
      simp [timeoutEligible, hst2]
    simp [sweepTicketStep, this]

/-- Claim C3 witness: re-closing the closed ticket from the
counterexample scenario reports success rather than "already closed". -/
theorem close_ticket_reclose_overwrites_witness :
    (close_ticket allOkCloseEnv true 10 false 200 "1" "2"
        [("1", [("2", ⟨10, "r", "closed", 0, 5, some 7, some 100⟩)])]).1
      = .closedOk :=
  (close_ticket_reclose_overwrites 10 false 200 "1" "2"
      [("1", [("2", ⟨10, "r", "closed", 0, 5, some 7, some 100⟩)])]
      ⟨10, "r", "closed", 0, 5, some 7, some 100⟩ (by decide) rfl
      (Or.inl rfl)).1

/-- Claim C7: the auto-close eligibility test is the strict comparison
`current_time - last_activity > 86400`: with every gateway call
succeeding, an open ticket ends the sweep step with status "closed" iff
`now - last_activity` strictly exceeds 86400 seconds; in particular at
threshold - 1 (86399) the ticket is untouched and at threshold + 1
(86401) it is closed. -/
theorem ticket_autoclose_strict_threshold
    (now : Int) (t : Ticket) (hopen : t.status = "open") :
    (timeoutEligible now t = true ↔ now - t.last_activity > 86400) ∧
    ((sweepTicketStep allOkSweepEnv now t).2.status = "closed"
        ↔ now - t.last_activity > 86400) ∧
    (now - t.last_activity = 86399 →
        sweepTicketStep allOkSweepEnv now t = (.skippedNotEligible, t)) ∧
    (now - t.last_activity = 86401 →
        (sweepTicketStep allOkSweepEnv now t).2.status = "closed") := by
  have helig : timeoutEligible now t
      = decide (now - t.last_activity > 86400) := by
    simp [timeoutEligible, hopen]
  have hiff : timeoutEligible now t = true ↔ now - t.last_activity > 86400 := by
    rw [helig]
    exact decide_eq_true_iff
  have hstep : ∀ h : now - t.last_activity > 86400,
      sweepTicketStep allOkSweepEnv now t
        = (.closedAuto, { t with status := "closed" }) := by
    intro h
    have : timeoutEligible now t = true := hiff.mpr h
    simp [sweepTicketStep, this, allOkSweepEnv]
  have hskip : ∀ _ : ¬ now - t.last_activity > 86400,
      sweepTicketStep allOkSweepEnv now t = (.skippedNotEligible, t) := by
    intro h
    have : timeoutEligible now t = false := by
      rw [helig]
      simpa using h
    simp [sweepTicketStep, this]
  refine ⟨hiff, ?_, ?_, ?_⟩
  · constructor
    · intro hcl
      by_contra hle
      rw [hskip hle] at hcl
      rw [hopen] at hcl
      exact absurd hcl (by decide)
    · intro h
      rw [hstep h]
  · intro heq
    apply hskip
    omega
  · intro heq
    have h : now - t.last_activity > 86400 := by omega
    rw [hstep h]

/-- Claim C7 witness: a ticket inactive for 86401 seconds is auto-closed
by the sweep; the eligibility test holds. -/
theorem ticket_autoclose_strict_threshold_witness :
    (sweepTicketStep allOkSweepEnv 86401
        ⟨10, "r", "open", 0, 0, none, none⟩).2.status = "closed" :=
  (ticket_autoclose_strict_threshold 86401
      ⟨10, "r", "open", 0, 0, none, none⟩ rfl).2.2.2 (by decide)

/-! ## Durable store (`load_data` bot.py lines 84-93,
`save_data` bot.py lines 95-100) -/

/-- Environment of one `load_data` call: whether `os.path.exists` is
true, and the joint result of `open` + `json.load` when attempted
(`Except.error` models any raised exception: unreadable file, corrupt or
truncated JSON). -/
structure LoadEnv (α : Type) where
  fileExists : Bool
  readResult : Except String α

/-- `load_data` (bot.py lines 84-93): return the parsed content if the
file exists and parses; return `default if default is not None else {}`
when the file is missing; catch any exception, log it, and return the
same default.  The function is total: no error propagates. -/
def load_data {α : Type} (env : LoadEnv α) (default : Option α)
    (emptyObj : α) : α :=
  let attempt : Except String α :=
    if env.fileExists then env.readResult
    else .ok (default.getD emptyObj)
  match attempt with
  | .ok v => v
  | .error _ => default.getD emptyObj

/-- Claim C5: `load_data` never raises: a missing file yields the empty
default, an unreadable or corrupt file (modelled as the read raising)
yields the same empty default, and a readable well-formed file yields
its parsed content — for every file state and every default. -/
theorem load_data_never_propagates {α : Type} (env : LoadEnv α)
    (default : Option α) (emptyObj : α) :
    (env.fileExists = false →
        load_data env default emptyObj = default.getD emptyObj) ∧
    (∀ msg, env.readResult = .error msg →
        load_data env default emptyObj = default.getD emptyObj) ∧
    (∀ v, env.readResult = .ok v → env.fileExists = true →
        load_data env default emptyObj = v) := by
  refine ⟨?_, ?_, ?_⟩
  · intro h
    simp [load_data, h]
  · intro msg h
    by_cases he : env.fileExists
    · simp [load_data, he, h]
    · simp [load_data, he]
  · intro v h he
    simp [load_data, he, h]

/-- Claim C5 witness: loading the reminders file when it is corrupt
degrades to the empty list default. -/
theorem load_data_never_propagates_witness :
    load_data (⟨true, Except.error "Expecting value"⟩ : LoadEnv (List Nat))
        (some []) [] = [] :=
  (load_data_never_propagates
      (⟨true, Except.error "Expecting value"⟩ : LoadEnv (List Nat))
      (some []) []).2.1 "Expecting value" rfl

/-- The file-system fragment visible to `save_data`: a map from path to
current content. -/
structure FS where
  files : List (String × String)
deriving DecidableEq

/-- Content of a path (`none` when no such file exists). -/
def FS.get (fs : FS) (p : String) : Option String :=
  lookupKey p fs.files

/-- Write (create or truncate-and-replace) one path. -/
def setFile (p v : String) : List (String × String) → List (String × String)
  | [] => [(p, v)]
  | q :: rest => if q.1 = p then (q.1, v) :: rest else q :: setFile p v rest

/-- File system right after `open(file_path, 'w')`: the target file has
been created or truncated to empty, nothing written yet. -/
def save_data_truncState (path : String) (fs : FS) : FS :=
  ⟨setFile path "" fs.files⟩

/-- File system after `json.dump` has written the full serialization. -/
def save_data_final (ser path : String) (fs : FS) : FS :=
  ⟨setFile path ser fs.files⟩

/-- The reachable file-system states of one `save_data` call
(bot.py lines 95-100), in program order: before the `open`, after the
`open(file_path, 'w')` truncation, after the completed `json.dump`.  A
crash can expose any of them; no temporary path and no rename occur. -/
def save_data_states (ser path : String) (fs : FS) : List FS :=
  [fs, save_data_truncState path fs, save_data_final ser path fs]

/-- `save_data` (bot.py lines 95-100): write the serialization directly
into the target file; any exception is caught and logged (`false` in the
returned flag), never propagated, leaving whatever partial state the
write reached. -/
def save_data (writeOk : Bool) (ser path : String) (fs : FS) : FS × Bool :=
  if writeOk then (save_data_final ser path fs, true)
  else (save_data_truncState path fs, false)

theorem lookupKey_setFile_self (p v : String) :
    ∀ (l : List (String × String)), lookupKey p (setFile p v l) = some v := by
  intro l
  induction l with
  | nil => simp [setFile, lookupKey]
  | cons q rest ih =>
      by_cases hq : q.1 = p
      · simp [setFile, hq, lookupKey]
      · simp only [setFile, if_neg hq, lookupKey]
        exact ih

theorem lookupKey_setFile_ne (p v q2 : String) (hne : q2 ≠ p) :
    ∀ (l : List (String × String)),
      lookupKey q2 (setFile p v l) = lookupKey q2 l := by
  intro l
  induction l with
  | nil =>
      simp only [setFile, lookupKey]
      rw [if_neg (fun h => hne h.symm)]
  | cons q rest ih =>
      by_cases hq : q.1 = p
      · have hq2 : q.1 ≠ q2 := by
          rw [hq]
          exact fun h => hne h.symm
        simp only [setFile, if_pos hq, lookupKey]
        rw [if_neg (hq ▸ hq2), if_neg hq2]
      · simp only [setFile, if_neg hq, lookupKey]
        by_cases hqq : q.1 = q2
        · rw [if_pos hqq, if_pos hqq]
        · rw [if_neg hqq, if_neg hqq]
          exact ih

/-- Claim C4 counterexample: `save_data` truncates the target file in
place (`open(file_path, 'w')`) before writing — there is no
write-to-temp-then-rename — so the state reachable by a crash between
the truncation and the completed `json.dump` holds an empty file: it is
neither the previous content "[1]" nor the new serialization "[2]",
i.e. a crash mid-write does corrupt the previously persisted version. -/
theorem save_data_crash_state_corrupts :
    save_data_truncState "reminders.json" ⟨[("reminders.json", "[1]")]⟩
        ∈ save_data_states "[2]" "reminders.json"
            ⟨[("reminders.json", "[1]")]⟩ ∧
    (save_data_truncState "reminders.json"
        ⟨[("reminders.json", "[1]")]⟩).get "reminders.json"
      ≠ some "[1]" ∧
    (save_data_truncState "reminders.json"
        ⟨[("reminders.json", "[1]")]⟩).get "reminders.json"
      ≠ some "[2]" := by
  decide

/-- Claim C4 (amended): `save_data` serializes the full collection and
writes it directly into the target file, truncating it on open — no
temporary file and no rename — so the only mid-write crash state is a
truncated (empty) target, not the previous version; on success the file
holds exactly the new serialization, no path other than the target is
ever touched, and a write failure is caught and logged (returned as a
flag, never raised), with the in-memory collection unaffected. -/
theorem save_data_direct_write (writeOk : Bool) (ser path : String)
    (fs : FS) :
    (save_data_final ser path fs).get path = some ser ∧
    (save_data_truncState path fs).get path = some "" ∧
    (∀ q, q ≠ path → ∀ s ∈ save_data_states ser path fs,
        s.get q = fs.get q) ∧
    (save_data writeOk ser path fs).1 ∈ save_data_states ser path fs := by
  refine ⟨?_, ?_, ?_, ?_⟩
  · exact lookupKey_setFile_self path ser fs.files
  · exact lookupKey_setFile_self path "" fs.files
  · intro q hq s hs
    simp only [save_data_states, List.mem_cons, List.not_mem_nil,
      or_false] at hs
    rcases hs with h | h | h
    · rw [h]
    · rw [h]
      exact lookupKey_setFile_ne path "" q hq fs.files
    · rw [h]
      exact lookupKey_setFile_ne path ser q hq fs.files
  · cases writeOk <;> simp [save_data, save_data_states]

/-- Claim C4 witness: writing "[2]" over a file holding "[1]" leaves
exactly "[2]" in the target on success. -/
theorem save_data_direct_write_witness :
    (save_data_final "[2]" "reminders.json"
        ⟨[("reminders.json", "[1]")]⟩).get "reminders.json" = some "[2]" :=
  (save_data_direct_write true "[2]" "reminders.json"
      ⟨[("reminders.json", "[1]")]⟩).1

/-! ## Poll manager (`end_poll`, bot.py lines 723-772) -/

/-- A poll record, as built by `advanced_poll` (bot.py lines 711-719). -/
structure Poll where
  title : String
  options : List String
  created_by : Nat
  channel_id : Nat
  message_id : Nat
  emoji_options : List String
deriving DecidableEq

/-- The `polls` collection, keyed by the stringified poll message id. -/
abbrev Polls := List (String × Poll)

/-- The reaction-counting loop of `end_poll` (bot.py lines 744-748):
for each option emoji, look up its reaction object (a missing reaction
is `discord.utils.get` returning `None`, whose `.count` raises) and pair
`poll["options"][i]` (an out-of-range index raises) with
`reaction.count - 1`, one subtracted to exclude the bot's own
reaction. -/
def collectResults (options emojis : List String)
    (counts : String → Option Nat) : Except String (List (String × Int)) :=
  match options, emojis with
  | _, [] => .ok []
  | [], _ :: _ => .error "IndexError"
  | o :: os, e :: es =>
      match counts e with
      | none => .error "AttributeError"
      | some k =>
          match collectResults os es counts with
          | .error msg => .error msg
          | .ok rest => .ok ((o, (k : Int) - 1) :: rest)

/-- The comparison under `results.sort(key=lambda x: x[1], reverse=True)`:
`a` may stay before `b` exactly when the vote count of `b` does not
exceed that of `a`.  Python's sort is stable and documents that
`reverse=True` preserves the original order of equal elements, which is
exactly insertion sort under this relation. -/
def voteOrder (a b : String × Int) : Prop := b.2 ≤ a.2

instance : DecidableRel voteOrder :=
  fun a b => inferInstanceAs (Decidable (b.2 ≤ a.2))

instance : IsTotal (String × Int) voteOrder :=
  ⟨fun a b => le_total b.2 a.2⟩

instance : IsTrans (String × Int) voteOrder :=
  ⟨fun _ _ _ h1 h2 => le_trans h2 h1⟩

/-- `results.sort(key=lambda x: x[1], reverse=True)` (bot.py line 751):
stable sort by vote count, descending. -/
def pySortByVotesDesc (l : List (String × Int)) : List (String × Int) :=
  List.insertionSort voteOrder l

/-- Environment of one `end_poll` call: whether `bot.get_channel`
returned a channel (a `None` raises on `.fetch_message`), whether
`fetch_message` succeeded, the per-emoji reaction counts on the fetched
message, and whether sending the results embed succeeded. -/
structure PollEnv where
  channel_some : Bool
  fetch_ok : Bool
  counts : String → Option Nat
  send_ok : Bool

/-- `del polls[message_id]` (bot.py line 768). -/
def delKey {β : Type} (k : String) : List (String × β) → List (String × β)
  | [] => []
  | p :: rest => if p.1 = k then rest else p :: delKey k rest

/-- Observable result of `end_poll`. -/
inductive EndPollResult where
  | noId
  | notFound
  | errored
  | ended (results : List (String × Int))
deriving DecidableEq

/-- The `!endpoll` command (bot.py lines 723-772): reject a missing
message id; report not-found for an untracked (or already ended) poll;
then, inside `try`, resolve the channel, fetch the poll message, count
and adjust reactions, sort descending, send the results embed, and only
then `del polls[message_id]` and save.  Any exception is caught and
reported, leaving the collection unchanged. -/
def end_poll (env : PollEnv) (message_id : Option String) (polls : Polls) :
    EndPollResult × Polls :=
  match message_id with
  | none => (.noId, polls)
  | some mid =>
    match lookupKey mid polls with
    | none => (.notFound, polls)
    | some poll =>
      if env.channel_some = false then (.errored, polls)
      else if env.fetch_ok = false then (.errored, polls)
      else
        match collectResults poll.options poll.emoji_options env.counts with
        | .error _ => (.errored, polls)
        | .ok raw =>
            if env.send_ok = false then (.errored, polls)
            else (.ended (pySortByVotesDesc raw), delKey mid polls)

theorem filter_orderedInsert (c : Int) (x : String × Int) :
    ∀ (l : List (String × Int)),
      (List.orderedInsert voteOrder x l).filter (fun p => p.2 == c)
        = if x.2 == c then x :: l.filter (fun p => p.2 == c)
          else l.filter (fun p => p.2 == c) := by
  intro l
  induction l with
  | nil =>
      by_cases hx : (x.2 == c) = true <;>
        simp [List.orderedInsert, List.filter_cons, hx]
  | cons y ys ih =>
      by_cases hxy : voteOrder x y
      · simp only [List.orderedInsert, if_pos hxy]
        by_cases hx : (x.2 == c) = true <;> simp [List.filter_cons, hx]
      · simp only [List.orderedInsert, if_neg hxy]
        by_cases hy : (y.2 == c) = true
        · have hxc : (x.2 == c) = false := by
            have hlt : x.2 < y.2 := not_le.mp hxy
            have hyc : y.2 = c := by simpa using hy
            have hne2 : x.2 ≠ c := by omega
            simpa using hne2
          simp [List.filter_cons, hy, hxc, ih]
        · by_cases hx : (x.2 == c) = true <;>
            simp [List.filter_cons, hy, hx, ih]

/-- Stability of the Python sort, phrased per vote count: for every
count value, the options carrying that count appear in the sorted output
in exactly their original input order. -/
theorem pySortByVotesDesc_filter (c : Int) :
    ∀ (l : List (String × Int)),
      (pySortByVotesDesc l).filter (fun p => p.2 == c)
        = l.filter (fun p => p.2 == c) := by
  intro l
  induction l with
  | nil => rfl
  | cons x xs ih =>
      simp only [pySortByVotesDesc, List.insertionSort] at ih ⊢
      rw [filter_orderedInsert, ih]
      by_cases hx : (x.2 == c) = true <;> simp [List.filter_cons, hx]

theorem collectResults_eq_map (counts : String → Option Nat) :
    ∀ (options emojis : List String), emojis.length ≤ options.length →
      (∀ e ∈ emojis, (counts e).isSome) →
      collectResults options emojis counts
        = .ok ((options.zip emojis).map
            (fun p => (p.1, ((counts p.2).getD 0 : Int) - 1))) := by
  intro options emojis
  induction emojis generalizing options with
  | nil => intro _ _; cases options <;> simp [collectResults]
  | cons e es ih =>
      intro hlen hsome
      cases options with
      | nil => simp at hlen
      | cons o os =>
          obtain ⟨k, hk⟩ := Option.isSome_iff_exists.mp
            (hsome e (List.mem_cons_self e es))
          have hlen2 : es.length ≤ os.length := by simpa using hlen
          have hsome2 : ∀ x ∈ es, (counts x).isSome :=
            fun x hx => hsome x (List.mem_cons_of_mem e hx)
          simp [collectResults, hk, ih os hlen2 hsome2]

/-- Claim C8: with the channel resolved, the message fetched, and every
option emoji carrying a reaction, `end_poll` subtracts one (the bot's
own baseline reaction) from each raw count, returns the options sorted
by adjusted count descending with a stable sort (options of equal count
keep their original order, phrased as filter-preservation per count),
and deletes the poll record; on options ["A", "B", "C"] with adjusted
counts [3, 3, 1] the result is exactly
[("A", 3), ("B", 3), ("C", 1)] and the record is gone. -/
theorem end_poll_tally_sorted_stable
    (counts : String → Option Nat) (mid : String) (polls : Polls)
    (poll : Poll) (hl : lookupKey mid polls = some poll)
    (hlen : poll.emoji_options.length ≤ poll.options.length)
    (hc : ∀ e ∈ poll.emoji_options, (counts e).isSome) :
    end_poll ⟨true, true, counts, true⟩ (some mid) polls
        = (.ended (pySortByVotesDesc
            ((poll.options.zip poll.emoji_options).map
              (fun p => (p.1, ((counts p.2).getD 0 : Int) - 1)))),
           delKey mid polls) ∧
    (∀ l : List (String × Int), (pySortByVotesDesc l).Perm l) ∧
    (∀ l : List (String × Int), List.Sorted voteOrder (pySortByVotesDesc l)) ∧
    (∀ (l : List (String × Int)) (c2 : Int),
        (pySortByVotesDesc l).filter (fun p => p.2 == c2)
          = l.filter (fun p => p.2 == c2)) ∧
    end_poll ⟨true, true,
        (fun e => lookupKey e [("e1", 4), ("e2", 4), ("e3", 2)]), true⟩
        (some "42")
        [("42", ⟨"t", ["A", "B", "C"], 9, 5, 42, ["e1", "e2", "e3"]⟩)]
      = (.ended [("A", 3), ("B", 3), ("C", 1)], []) := by
  refine ⟨?_, ?_, ?_, ?_, ?_⟩
  · simp [end_poll, hl, collectResults_eq_map counts poll.options
      poll.emoji_options hlen hc]
  · exact fun l => List.perm_insertionSort voteOrder l
  · exact fun l => List.sorted_insertionSort voteOrder l
  · exact fun l c2 => pySortByVotesDesc_filter c2 l
  · decide

/-- Claim C8 witness: the concrete three-option poll with raw reaction
counts 4, 4, 2 tallies to [("A", 3), ("B", 3), ("C", 1)] — ties keep
the original option order — and the record is deleted. -/
theorem end_poll_tally_sorted_stable_witness :
    end_poll ⟨true, true,
        (fun e => lookupKey e [("e1", 4), ("e2", 4), ("e3", 2)]), true⟩
        (some "42")
        [("42", ⟨"t", ["A", "B", "C"], 9, 5, 42, ["e1", "e2", "e3"]⟩)]
      = (.ended [("A", 3), ("B", 3), ("C", 1)], []) :=
  (end_poll_tally_sorted_stable
      (fun e => lookupKey e [("e1", 4), ("e2", 4), ("e3", 2)]) "42"
      [("42", ⟨"t", ["A", "B", "C"], 9, 5, 42, ["e1", "e2", "e3"]⟩)]
      ⟨"t", ["A", "B", "C"], 9, 5, 42, ["e1", "e2", "e3"]⟩
      (by decide) (by decide) (by decide)).2.2.2.2

/-- Claim C10: ending a tracked poll is atomic on failure: if channel
resolution, the message fetch, any reaction count, or the results send
fails, the command reports the error and the polls collection is exactly
as before (retry remains possible); the record is deleted only when the
results were successfully reported. -/
theorem end_poll_keeps_record_unless_reported
    (env : PollEnv) (mid : String) (polls : Polls) (poll : Poll)
    (hl : lookupKey mid polls = some poll) :
    ((∀ rs, (end_poll env (some mid) polls).1 ≠ EndPollResult.ended rs) →
        (end_poll env (some mid) polls).2 = polls) ∧
    (∀ rs, (end_poll env (some mid) polls).1 = EndPollResult.ended rs →
        env.send_ok = true ∧
        (end_poll env (some mid) polls).2 = delKey mid polls) ∧
    (env.channel_some = false →
        end_poll env (some mid) polls = (.errored, polls)) ∧
    (env.fetch_ok = false →
        end_poll env (some mid) polls = (.errored, polls)) ∧
    (env.send_ok = false →
        end_poll env (some mid) polls = (.errored, polls)) ∧
    (∀ msg, collectResults poll.options poll.emoji_options env.counts
          = .error msg →
        end_poll env (some mid) polls = (.errored, polls)) := by
  refine ⟨?_, ?_, ?_, ?_, ?_, ?_⟩
  · intro hne
    by_cases hch : env.channel_some = false
    · simp [end_poll, hl, hch]
    · by_cases hf : env.fetch_ok = false
      · simp [end_poll, hl, hch, hf]
      · cases hcol : collectResults poll.options poll.emoji_options env.counts with
        | error msg => simp [end_poll, hl, hch, hf, hcol]
        | ok raw =>
            by_cases hs : env.send_ok = false
            · simp [end_poll, hl, hch, hf, hcol, hs]
            · exfalso
              apply hne (pySortByVotesDesc raw)
              simp [end_poll, hl, hch, hf, hcol, hs]
  · intro rs hrs
    by_cases hch : env.channel_some = false
    · simp [end_poll, hl, hch] at hrs
    · by_cases hf : env.fetch_ok = false
      · simp [end_poll, hl, hch, hf] at hrs
      · cases hcol : collectResults poll.options poll.emoji_options env.counts with
        | error msg => simp [end_poll, hl, hch, hf, hcol] at hrs
        | ok raw =>
            by_cases hs : env.send_ok = false
            · simp [end_poll, hl, hch, hf, hcol, hs] at hrs
            · refine ⟨by simpa using hs, ?_⟩
              simp [end_poll, hl, hch, hf, hcol, hs]
  · intro hch
    simp [end_poll, hl, hch]
  · intro hf
    by_cases hch : env.channel_some = false <;> simp [end_poll, hl, hch, hf]
  · intro hs
    by_cases hch : env.channel_some = false
    · simp [end_poll, hl, hch]
    · by_cases hf : env.fetch_ok = false
      · simp [end_poll, hl, hch, hf]
      · cases hcol : collectResults poll.options poll.emoji_options env.counts with
        | error msg => simp [end_poll, hl, hch, hf, hcol]
        | ok raw => simp [end_poll, hl, hch, hf, hcol, hs]
  · intro msg hcol
    by_cases hch : env.channel_some = false
    · simp [end_poll, hl, hch]
    · by_cases hf : env.fetch_ok = false
      · simp [end_poll, hl, hch, hf]
      · simp [end_poll, hl, hch, hf, hcol]

/-- Claim C10 witness: when the poll channel cannot be resolved, the
command errors and the poll record survives untouched. -/
theorem end_poll_keeps_record_unless_reported_witness :
    end_poll ⟨false, true, (fun _ => none), true⟩ (some "42")
        [("42", ⟨"t", ["A"], 9, 5, 42, ["e1"]⟩)]
      = (.errored, [("42", ⟨"t", ["A"], 9, 5, 42, ["e1"]⟩)]) :=
  (end_poll_keeps_record_unless_reported ⟨false, true, (fun _ => none), true⟩
      "42" [("42", ⟨"t", ["A"], 9, 5, 42, ["e1"]⟩)]
      ⟨"t", ["A"], 9, 5, 42, ["e1"]⟩ (by decide)).2.2.1 rfl
